import Mathlib

/-!
Verification development for the EscroAgent repository.

Shallow embedding of the core components:
* `Escrow` — the on-ledger custody state machine
  (src/contracts/contracts/Escrow.sol);
* `EscrowFactory` — the registry/factory that deploys custody instances
  (src/contracts/contracts/EscrowFactory.sol);
* `ConditionService` — the off-chain condition evaluator
  (src/agent/services/conditionService.js);
* `ValidationService` / `BlockchainService` — the shared validation and
  ledger-read layer of the settlement agent;
* `AgentService` — the monitoring loop of the settlement engine.

Ledger addresses are modelled as natural numbers (0 is the zero address),
wei amounts and timestamps as natural numbers, and every fallible entry
point returns `Except String α`: `Except.error` is a reverted call, after
which none of the attempted effects persist (the EVM transaction model).
-/

/-- Agreement status, mirroring `enum Status { Pending, Escrowed, Settled,
Disputed }` of Escrow.sol.  The spec names these Created, Funded, Settled,
Disputed. -/
inductive Status where
  | pending
  | escrowed
  | settled
  | disputed
deriving DecidableEq, Repr

/-- The `Agreement` struct of Escrow.sol. -/
structure Agreement where
  payer : Nat
  payee : Nat
  amount : Nat
  conditionType : Nat
  conditionDetailsHash : Nat
  status : Status
  createdAt : Nat
  settledAt : Nat
deriving DecidableEq, Repr

/-- The full storage of one deployed `Escrow` contract, together with its
ether balance (`address(this).balance`). -/
structure EscrowState where
  agreement : Agreement
  authorizedAgent : Nat
  x402payFeeAddress : Nat
  x402payFeeAmount : Nat
  balance : Nat
deriving DecidableEq, Repr

namespace Escrow

/-- The constructor of Escrow.sol.  Checks, in source order: payer nonzero,
payee nonzero, amount strictly positive, agent nonzero, fee address
nonzero, fee strictly below the amount.  A fresh instance starts with
status `Pending`, `settledAt = 0` and zero balance (the constructor is not
payable). -/
def create (payer payee amount conditionType hash agent feeAddr feeAmount now : Nat) :
    Except String EscrowState :=
  if payer = 0 then .error "Invalid payer address"
  else if payee = 0 then .error "Invalid payee address"
  else if amount = 0 then .error "Amount must be greater than 0"
  else if agent = 0 then .error "Invalid agent address"
  else if feeAddr = 0 then .error "Invalid fee address"
  else if feeAmount < amount then
    .ok { agreement :=
            { payer := payer, payee := payee, amount := amount,
              conditionType := conditionType, conditionDetailsHash := hash,
              status := .pending, createdAt := now, settledAt := 0 },
          authorizedAgent := agent, x402payFeeAddress := feeAddr,
          x402payFeeAmount := feeAmount, balance := 0 }
  else .error "Fee amount must be less than total amount"

/-- The `receive()` function of Escrow.sol: accepts an incoming transfer of
`value` wei from `sender`.  It requires the sender to be the payer and the
value to equal the agreement amount, then unconditionally sets the status
to `Escrowed` — the source performs no check of the current status.  On
success the contract balance has grown by `value`; on revert the transfer
is undone. -/
def receive (s : EscrowState) (sender value : Nat) : Except String EscrowState :=
  if sender ≠ s.agreement.payer then .error "Only payer can send funds"
  else if value ≠ s.agreement.amount then .error "Incorrect amount sent"
  else .ok { s with
             agreement := { s.agreement with status := .escrowed },
             balance := s.balance + value }

/-- The `settle()` function of Escrow.sol.  Modifiers in source order:
`onlyAgent`, `notSettled`, `notDisputed` (plus `nonReentrant`, vacuous in
this single-call model).  The body marks the agreement settled, then pays
`amount - fee` to the payee and `fee` to the fee address, each through a
low-level call that is individually checked; a failed call reverts the
whole transaction.  `rejects a` models a recipient `a` whose receive
reverts; a value transfer also fails when the contract balance is below
the value sent.  On success the result carries the new state and the list
of disbursements in payment order. -/
def settle (rejects : Nat → Bool) (s : EscrowState) (sender now : Nat) :
    Except String (EscrowState × List (Nat × Nat)) :=
  if sender ≠ s.authorizedAgent then .error "Only authorized agent can call this function"
  else if s.agreement.status = .settled then .error "Agreement already settled"
  else if s.agreement.status = .disputed then .error "Agreement is disputed"
  else if s.balance < s.agreement.amount - s.x402payFeeAmount ∨
      rejects s.agreement.payee = true then
    .error "Transfer to payee failed"
  else if s.balance - (s.agreement.amount - s.x402payFeeAmount) < s.x402payFeeAmount ∨
      rejects s.x402payFeeAddress = true then
    .error "Transfer of fee failed"
  else
    .ok ({ s with
           agreement := { s.agreement with status := .settled, settledAt := now },
           balance := s.balance - (s.agreement.amount - s.x402payFeeAmount) - s.x402payFeeAmount },
         [(s.agreement.payee, s.agreement.amount - s.x402payFeeAmount),
          (s.x402payFeeAddress, s.x402payFeeAmount)])

/-- The `initiateDispute(reason)` function of Escrow.sol: only a
participant may call it, and only while the agreement is not settled; it
sets the status to `Disputed`. -/
def initiateDispute (s : EscrowState) (sender : Nat) (_reason : String) :
    Except String EscrowState :=
  if sender ≠ s.agreement.payer ∧ sender ≠ s.agreement.payee then
    .error "Only payer or payee can call this function"
  else if s.agreement.status = .settled then .error "Agreement already settled"
  else .ok { s with agreement := { s.agreement with status := .disputed } }

end Escrow

/-- States of one custody contract reachable through its entry points,
starting from a successful constructor call. -/
inductive Reachable : EscrowState → Prop where
  | created : ∀ payer payee amount conditionType hash agent feeAddr feeAmount now s,
      Escrow.create payer payee amount conditionType hash agent feeAddr feeAmount now = .ok s →
      Reachable s
  | fundedStep : ∀ s sender value s',
      Reachable s → Escrow.receive s sender value = .ok s' → Reachable s'
  | settledStep : ∀ rejects s sender now s' outs,
      Reachable s → Escrow.settle rejects s sender now = .ok (s', outs) → Reachable s'
  | disputedStep : ∀ s sender reason s',
      Reachable s → Escrow.initiateDispute s sender reason = .ok s' → Reachable s'

/-- Structural invariants of every reachable custody state: the amount is
positive, the settlement fee is strictly below it, the parties, agent and
fee address are nonzero, these fields never change, and an agreement still
`Pending` has never received funds, so its balance is zero. -/
theorem reachable_inv (s : EscrowState) (h : Reachable s) :
    0 < s.agreement.amount ∧
    s.x402payFeeAmount < s.agreement.amount ∧
    s.agreement.payer ≠ 0 ∧
    s.agreement.payee ≠ 0 ∧
    s.authorizedAgent ≠ 0 ∧
    s.x402payFeeAddress ≠ 0 ∧
    (s.agreement.status = .pending → s.balance = 0) := by
  induction h with
  | created payer payee amount conditionType hash agent feeAddr feeAmount now s hc =>
    unfold Escrow.create at hc
    split at hc; · simp at hc
    split at hc; · simp at hc
    split at hc; · simp at hc
    split at hc; · simp at hc
    split at hc; · simp at hc
    split at hc
    · rename_i h1 h2 h3 h4 h5 h6
      injection hc with hc
      subst hc
      exact ⟨Nat.pos_of_ne_zero h3, h6, h1, h2, h4, h5, fun _ => rfl⟩
    · simp at hc
  | fundedStep s sender value s' _ hr ih =>
    unfold Escrow.receive at hr
    split at hr; · simp at hr
    split at hr; · simp at hr
    injection hr with hr
    subst hr
    exact ⟨ih.1, ih.2.1, ih.2.2.1, ih.2.2.2.1, ih.2.2.2.2.1, ih.2.2.2.2.2.1,
      fun hst => by simp at hst⟩
  | settledStep rejects s sender now s' outs _ hr ih =>
    unfold Escrow.settle at hr
    split at hr; · simp at hr
    split at hr; · simp at hr
    split at hr; · simp at hr
    split at hr; · simp at hr
    split at hr; · simp at hr
    injection hr with hr
    injection hr with hse houts
    subst hse
    exact ⟨ih.1, ih.2.1, ih.2.2.1, ih.2.2.2.1, ih.2.2.2.2.1, ih.2.2.2.2.2.1,
      fun hst => by simp at hst⟩
  | disputedStep s sender reason s' _ hr ih =>
    unfold Escrow.initiateDispute at hr
    split at hr; · simp at hr
    split at hr; · simp at hr
    injection hr with hr
    subst hr
    exact ⟨ih.1, ih.2.1, ih.2.2.1, ih.2.2.2.1, ih.2.2.2.2.1, ih.2.2.2.2.2.1,
      fun hst => by simp at hst⟩

/-- A concrete freshly created agreement: payer 1, payee 2, amount 10 wei,
agent 3, fee address 4, settlement fee 1 wei. -/
def sampleCreated : EscrowState :=
  { agreement :=
      { payer := 1, payee := 2, amount := 10, conditionType := 0,
        conditionDetailsHash := 0, status := .pending, createdAt := 0, settledAt := 0 },
    authorizedAgent := 3, x402payFeeAddress := 4, x402payFeeAmount := 1, balance := 0 }

/-- `sampleCreated` after the payer funds it with 10 wei. -/
def sampleFunded : EscrowState :=
  { sampleCreated with
    agreement := { sampleCreated.agreement with status := .escrowed }, balance := 10 }

/-- `sampleFunded` after the agent settles it at time 5: 9 wei went to the
payee, 1 wei to the fee address, balance is zero. -/
def sampleSettled : EscrowState :=
  { sampleCreated with
    agreement := { sampleCreated.agreement with status := .settled, settledAt := 5 },
    balance := 0 }

/-- A network where every recipient accepts incoming transfers. -/
def noRejects : Nat → Bool := fun _ => false

theorem sampleCreated_reachable : Reachable sampleCreated :=
  .created 1 2 10 0 0 3 4 1 0 sampleCreated rfl

theorem sampleFunded_reachable : Reachable sampleFunded :=
  .fundedStep sampleCreated 1 10 sampleFunded sampleCreated_reachable rfl

theorem sampleSettled_reachable : Reachable sampleSettled :=
  .settledStep noRejects sampleFunded 3 5 sampleSettled [(2, 9), (4, 1)]
    sampleFunded_reachable rfl

/-- Anatomy of a successful `settle()` call: the sender was the agent, the
agreement was neither settled nor disputed, the balance covered the payee
leg, the new state is the settled update of the old one, and the
disbursements are the payee leg followed by the fee leg. -/
theorem settle_ok_elim (rejects : Nat → Bool) (s : EscrowState) (sender now : Nat)
    (s' : EscrowState) (outs : List (Nat × Nat))
    (hok : Escrow.settle rejects s sender now = .ok (s', outs)) :
    sender = s.authorizedAgent ∧
    s.agreement.status ≠ .settled ∧
    s.agreement.status ≠ .disputed ∧
    ¬(s.balance < s.agreement.amount - s.x402payFeeAmount) ∧
    s' = { s with
           agreement := { s.agreement with status := .settled, settledAt := now },
           balance := s.balance - (s.agreement.amount - s.x402payFeeAmount) -
             s.x402payFeeAmount } ∧
    outs = [(s.agreement.payee, s.agreement.amount - s.x402payFeeAmount),
            (s.x402payFeeAddress, s.x402payFeeAmount)] := by
  unfold Escrow.settle at hok
  split at hok; · simp at hok
  split at hok; · simp at hok
  split at hok; · simp at hok
  split at hok; · simp at hok
  split at hok; · simp at hok
  rename_i h1 h2 h3 h4 h5
  injection hok with hok
  injection hok with hse houts
  exact ⟨not_ne_iff.mp h1, h2, h3, fun hlt => h4 (Or.inl hlt), hse.symm, houts.symm⟩

/-- A `settle()` call on an already-settled agreement reverts in the
`notSettled` modifier. -/
theorem settle_fails_of_settled (rejects : Nat → Bool) (s : EscrowState) (sender now : Nat)
    (hst : s.agreement.status = .settled) :
    (Escrow.settle rejects s sender now).isOk = false := by
  unfold Escrow.settle
  split; · rfl
  rfl

/-- A `settle()` call on a disputed agreement reverts in the `notDisputed`
modifier. -/
theorem settle_fails_of_disputed (rejects : Nat → Bool) (s : EscrowState) (sender now : Nat)
    (hst : s.agreement.status = .disputed) :
    (Escrow.settle rejects s sender now).isOk = false := by
  unfold Escrow.settle
  split; · rfl
  split; · rfl
  rfl

/-- A `settle()` call on a yet-unfunded agreement passes every modifier but
reverts when the payee transfer is attempted: the contract holds no funds
and the payee leg is strictly positive. -/
theorem settle_fails_of_pending (rejects : Nat → Bool) (s : EscrowState) (sender now : Nat)
    (hbal : s.balance = 0) (hfee : s.x402payFeeAmount < s.agreement.amount) :
    (Escrow.settle rejects s sender now).isOk = false := by
  unfold Escrow.settle
  split; · rfl
  split; · rfl
  split; · rfl
  split; · rfl
  rename_i hcon
  exact absurd (Or.inl (by rw [hbal]; exact Nat.sub_pos_of_lt hfee)) hcon

/-- Anatomy of a successful Escrow constructor call. -/
theorem create_ok_elim (payer payee amount conditionType hash agent feeAddr feeAmount now : Nat)
    (s : EscrowState)
    (hok : Escrow.create payer payee amount conditionType hash agent feeAddr feeAmount now = .ok s) :
    payer ≠ 0 ∧ payee ≠ 0 ∧ amount ≠ 0 ∧ agent ≠ 0 ∧ feeAddr ≠ 0 ∧ feeAmount < amount ∧
    s = { agreement :=
            { payer := payer, payee := payee, amount := amount,
              conditionType := conditionType, conditionDetailsHash := hash,
              status := .pending, createdAt := now, settledAt := 0 },
          authorizedAgent := agent, x402payFeeAddress := feeAddr,
          x402payFeeAmount := feeAmount, balance := 0 } := by
  unfold Escrow.create at hok
  split at hok; · simp at hok
  split at hok; · simp at hok
  split at hok; · simp at hok
  split at hok; · simp at hok
  split at hok; · simp at hok
  split at hok
  · rename_i h1 h2 h3 h4 h5 h6
    injection hok with hok
    exact ⟨h1, h2, h3, h4, h5, h6, hok.symm⟩
  · simp at hok

/-- Storage of the `EscrowFactory` contract (EscrowFactory.sol), together
with the factory's own ledger address `addr`. -/
structure FactoryState where
  addr : Nat
  x402payFeeAddress : Nat
  x402payFeeAmount : Nat
  authorizedAgent : Nat
  isEscrowContract : Nat → Bool
  deployedEscrows : List Nat
  totalAgreements : Nat
  totalVolume : Nat

namespace EscrowFactory

/-- The `createEscrow` entry point of EscrowFactory.sol, called by `sender`
with `value` attached wei; `newAddr` is the ledger address assigned to the
deployed instance.  Checks in source order: payee nonzero, amount
positive, attached value equal to the amount, condition type at most 2.
It then deploys an `Escrow` with the caller as payer, registers it,
bumps the counters, and forwards the attached value to the new instance
through a low-level call — which executes the instance's `receive()` with
the factory as the transfer's sender.  In the source the registration and
counter updates precede the transfer; a failed transfer reverts them all,
so the net effect is as modelled here.  On success the result is the
updated factory state and the funded escrow state. -/
def createEscrow (f : FactoryState) (newAddr sender payee amount conditionType hash value now : Nat) :
    Except String (FactoryState × EscrowState) :=
  if payee = 0 then .error "Invalid payee address"
  else if amount = 0 then .error "Amount must be greater than 0"
  else if value ≠ amount then .error "Incorrect amount sent"
  else if 2 < conditionType then .error "Invalid condition type"
  else
    match Escrow.create sender payee amount conditionType hash
        f.authorizedAgent f.x402payFeeAddress f.x402payFeeAmount now with
    | .error e => .error e
    | .ok es =>
      match Escrow.receive es f.addr value with
      | .error _ => .error "Transfer to escrow failed"
      | .ok es' =>
        .ok ({ f with
               isEscrowContract := fun a => if a = newAddr then true else f.isEscrowContract a,
               deployedEscrows := f.deployedEscrows ++ [newAddr],
               totalAgreements := f.totalAgreements + 1,
               totalVolume := f.totalVolume + amount }, es')

end EscrowFactory

/-- A concrete factory instance: factory address 100, fee address 4,
settlement fee 1 wei, agent 3, nothing deployed yet. -/
def sampleFactory : FactoryState :=
  { addr := 100, x402payFeeAddress := 4, x402payFeeAmount := 1, authorizedAgent := 3,
    isEscrowContract := fun _ => false, deployedEscrows := [], totalAgreements := 0,
    totalVolume := 0 }

/-- C1: the spec says a `createEscrow` call with a non-zero beneficiary, a
positive amount, an in-range condition type and the required attached
value succeeds, creating, funding and registering a new custody instance.
The code cannot do this: it forwards the attached value to the new
instance through a low-level call, so the instance's `receive()` sees the
factory — not the payer — as the sender of the funds and reverts with
"Only payer can send funds"; `createEscrow` then reverts with "Transfer to
escrow failed".  Hence every external `createEscrow` call (the caller is
never the factory contract itself) fails, whatever the arguments. -/
theorem createEscrow_never_succeeds (f : FactoryState)
    (newAddr sender payee amount conditionType hash value now : Nat)
    (hsender : sender ≠ f.addr) :
    (EscrowFactory.createEscrow f newAddr sender payee amount conditionType hash
      value now).isOk = false := by
  unfold EscrowFactory.createEscrow
  split; · rfl
  split; · rfl
  split; · rfl
  split; · rfl
  split
  · rfl
  · rename_i es hes
    split
    · rfl
    · rename_i es' hrec
      exfalso
      have hp : es.agreement.payer = sender :=
        congrArg (fun t => t.agreement.payer) (create_ok_elim _ _ _ _ _ _ _ _ _ _ hes).2.2.2.2.2.2
      unfold Escrow.receive at hrec
      split at hrec
      · simp at hrec
      · rename_i hsd
        rw [not_ne_iff, hp] at hsd
        exact hsender hsd.symm

/-- C1 witness: a fully valid creation call — payee 2 nonzero, amount 10
above the 1-wei settlement fee, condition type 0, attached value equal to
the amount, caller 1 distinct from the factory — still fails, and fails
exactly at the funds-forwarding step. -/
theorem createEscrow_never_succeeds_witness :
    (1 : Nat) ≠ sampleFactory.addr ∧
    (EscrowFactory.createEscrow sampleFactory 200 1 2 10 0 0 10 0).isOk = false ∧
    EscrowFactory.createEscrow sampleFactory 200 1 2 10 0 0 10 0 =
      .error "Transfer to escrow failed" :=
  ⟨by decide, createEscrow_never_succeeds sampleFactory 200 1 2 10 0 0 10 0 (by decide), rfl⟩

/-- C2: on every reachable agreement state, `settle()` succeeds only when
the caller is the designated settlement agent and the status is exactly
`Escrowed` (Funded); for every other status — `Pending` (created but not
yet funded, where the modifiers pass but the payee transfer fails for lack
of funds), `Settled`, or `Disputed` — the call fails, and since a failed
call is a revert, nothing is disbursed.  Moreover any state produced by a
successful `settle()` is `Settled`, so a second `settle()` on it always
fails and never double-disburses. -/
theorem settle_requires_agent_and_funded (rejects : Nat → Bool) (s : EscrowState)
    (sender now : Nat) (h : Reachable s) :
    ((Escrow.settle rejects s sender now).isOk = true →
        sender = s.authorizedAgent ∧ s.agreement.status = .escrowed) ∧
    (s.agreement.status ≠ .escrowed → (Escrow.settle rejects s sender now).isOk = false) ∧
    (∀ s' outs, Escrow.settle rejects s sender now = .ok (s', outs) →
        ∀ rejects2 sender2 now2, (Escrow.settle rejects2 s' sender2 now2).isOk = false) := by
  obtain ⟨-, hfee, -, -, -, -, hpend⟩ := reachable_inv s h
  refine ⟨?_, ?_, ?_⟩
  · intro hok
    cases hcall : Escrow.settle rejects s sender now with
    | error e => rw [hcall] at hok; exact Bool.noConfusion hok
    | ok out =>
      obtain ⟨hagent, hset, hdis, hbal, -, -⟩ :=
        settle_ok_elim rejects s sender now out.1 out.2 (by rw [hcall])
      refine ⟨hagent, ?_⟩
      cases hst : s.agreement.status with
      | pending =>
        exact absurd (by rw [hpend hst]; exact Nat.sub_pos_of_lt hfee) hbal
      | escrowed => rfl
      | settled => exact absurd hst hset
      | disputed => exact absurd hst hdis
  · intro hne
    cases hst : s.agreement.status with
    | pending => exact settle_fails_of_pending rejects s sender now (hpend hst) hfee
    | escrowed => exact absurd hst hne
    | settled => exact settle_fails_of_settled rejects s sender now hst
    | disputed => exact settle_fails_of_disputed rejects s sender now hst
  · intro s' outs hok rejects2 sender2 now2
    obtain ⟨-, -, -, -, hs', -⟩ := settle_ok_elim rejects s sender now s' outs hok
    exact settle_fails_of_settled rejects2 s' sender2 now2 (by rw [hs'])

/-- C2 witness: settling the concrete reachable settled agreement
`sampleSettled` fails, and a settle call on the concrete funded agreement
`sampleFunded` by a non-agent fails. -/
theorem settle_requires_agent_and_funded_witness :
    sampleSettled.agreement.status ≠ Status.escrowed ∧
    (Escrow.settle noRejects sampleSettled 3 6).isOk = false :=
  ⟨by decide,
   (settle_requires_agent_and_funded noRejects sampleSettled 3 6 sampleSettled_reachable).2.1
     (by decide)⟩

/-- C3: whenever `settle()` succeeds on a reachable agreement state, the
disbursements are exactly the payee leg `amount - protocolFee` followed by
the fee leg `protocolFee`, in that order, and they conserve the amount:
`(amount - protocolFee) + protocolFee = amount`.  Each leg is individually
checked: a recipient whose receive reverts on either leg makes the whole
call fail (and, the call being a revert, no disbursement persists). -/
theorem settle_conservation (rejects : Nat → Bool) (s : EscrowState) (sender now : Nat)
    (s' : EscrowState) (outs : List (Nat × Nat)) (h : Reachable s)
    (hok : Escrow.settle rejects s sender now = .ok (s', outs)) :
    outs = [(s.agreement.payee, s.agreement.amount - s.x402payFeeAmount),
            (s.x402payFeeAddress, s.x402payFeeAmount)] ∧
    (s.agreement.amount - s.x402payFeeAmount) + s.x402payFeeAmount = s.agreement.amount ∧
    (∀ rejects2 : Nat → Bool, rejects2 s.agreement.payee = true →
        (Escrow.settle rejects2 s sender now).isOk = false) ∧
    (∀ rejects2 : Nat → Bool, rejects2 s.x402payFeeAddress = true →
        (Escrow.settle rejects2 s sender now).isOk = false) := by
  obtain ⟨-, hfee, -, -, -, -, -⟩ := reachable_inv s h
  obtain ⟨-, -, -, -, -, houts⟩ := settle_ok_elim rejects s sender now s' outs hok
  refine ⟨houts, Nat.sub_add_cancel (Nat.le_of_lt hfee), ?_, ?_⟩
  · intro rejects2 hrej
    unfold Escrow.settle
    split; · rfl
    split; · rfl
    split; · rfl
    split
    · rfl
    · rename_i hcon
      exact absurd (Or.inr hrej) hcon
  · intro rejects2 hrej
    unfold Escrow.settle
    split; · rfl
    split; · rfl
    split; · rfl
    split
    · rfl
    · split
      · rfl
      · rename_i hcon
        exact absurd (Or.inr hrej) hcon

/-- C3 witness: settling the concrete funded agreement `sampleFunded`
(amount 10, fee 1) pays the payee 9 and the fee address 1, in that order,
and 9 + 1 = 10. -/
theorem settle_conservation_witness :
    [((2 : Nat), (9 : Nat)), (4, 1)] =
      [(sampleFunded.agreement.payee, sampleFunded.agreement.amount - sampleFunded.x402payFeeAmount),
       (sampleFunded.x402payFeeAddress, sampleFunded.x402payFeeAmount)] ∧
    (sampleFunded.agreement.amount - sampleFunded.x402payFeeAmount) + sampleFunded.x402payFeeAmount
      = sampleFunded.agreement.amount :=
  ⟨(settle_conservation noRejects sampleFunded 3 5 sampleSettled [(2, 9), (4, 1)]
      sampleFunded_reachable rfl).1,
   (settle_conservation noRejects sampleFunded 3 5 sampleSettled [(2, 9), (4, 1)]
      sampleFunded_reachable rfl).2.1⟩

/-- C4 fails on the code: `receive()` performs no status check, so a
Settled (terminal, per the claim) agreement moves back to Escrowed when
the payer sends the amount again — and the re-funded agreement can then be
settled a second time.  This theorem evaluates the code at the failing
input: `sampleSettled` is a reachable settled state; the payer (1) sending
the amount (10) to it succeeds and yields status `Escrowed`, on which a
second `settle()` by the agent succeeds again. -/
theorem receive_unsettles_settled_agreement :
    Reachable sampleSettled ∧
    sampleSettled.agreement.status = Status.settled ∧
    ∃ s', Escrow.receive sampleSettled 1 10 = .ok s' ∧
      s'.agreement.status = Status.escrowed ∧
      (Escrow.settle noRejects s' 3 7).isOk = true :=
  ⟨sampleSettled_reachable, rfl,
   ⟨{ sampleSettled with
      agreement := { sampleSettled.agreement with status := .escrowed }, balance := 10 },
    rfl, rfl, rfl⟩⟩

/-- C5 amended: both party addresses are validated non-zero at creation
(creation fails when either is the zero address) and remain non-zero — and
unchanged — for the lifetime of the agreement; however, contrary to the
claim, neither the factory nor the custody constructor rejects
depositor = beneficiary, so an agreement whose two parties are equal can
be created. -/
theorem parties_nonzero_for_lifetime :
    (∀ payer payee amount conditionType hash agent feeAddr feeAmount now : Nat,
        payer = 0 ∨ payee = 0 →
        (Escrow.create payer payee amount conditionType hash agent feeAddr
          feeAmount now).isOk = false) ∧
    (∀ s : EscrowState, Reachable s →
        s.agreement.payer ≠ 0 ∧ s.agreement.payee ≠ 0) := by
  constructor
  · intro payer payee amount conditionType hash agent feeAddr feeAmount now hzero
    unfold Escrow.create
    split; · rfl
    rename_i hp
    split; · rfl
    rename_i hq
    cases hzero with
    | inl h0 => exact absurd h0 hp
    | inr h0 => exact absurd h0 hq
  · intro s hs
    obtain ⟨-, -, hp, hq, -, -, -⟩ := reachable_inv s hs
    exact ⟨hp, hq⟩

/-- C5 witness: creation with a zero payer fails, and the parties of the
concrete reachable state `sampleCreated` are non-zero. -/
theorem parties_nonzero_for_lifetime_witness :
    (Escrow.create 0 2 10 0 0 3 4 1 0).isOk = false ∧
    sampleCreated.agreement.payer ≠ 0 ∧ sampleCreated.agreement.payee ≠ 0 :=
  ⟨parties_nonzero_for_lifetime.1 0 2 10 0 0 3 4 1 0 (Or.inl rfl),
   parties_nonzero_for_lifetime.2 sampleCreated sampleCreated_reachable⟩

/-- C5 counterexample: the claim says creation fails whenever the two
parties are equal; in fact the constructor accepts payer = payee = 5 and
produces an agreement whose depositor and beneficiary coincide. -/
theorem create_accepts_equal_parties :
    ∃ s, Escrow.create 5 5 10 0 0 3 4 1 0 = .ok s ∧
      s.agreement.payer = s.agreement.payee :=
  ⟨{ agreement :=
       { payer := 5, payee := 5, amount := 10, conditionType := 0,
         conditionDetailsHash := 0, status := .pending, createdAt := 0, settledAt := 0 },
     authorizedAgent := 3, x402payFeeAddress := 4, x402payFeeAmount := 1, balance := 0 },
   rfl, rfl⟩

/-- The fee charged by the factory at creation.  EscrowFactory.sol defines
no creation fee: `createEscrow` requires `msg.value == _amount` and
forwards the full attached value to the new instance, so the spec's
`creationFee` is zero in this implementation. -/
def creationFee : Nat := 0

/-- C6: a creation call succeeds only when the attached value equals
`amount + creationFee` exactly (with `creationFee = 0` in this code:
`require(msg.value == _amount)`), and any mismatch is a hard failure — the
whole call reverts, so there is no partial refund to model. -/
theorem createEscrow_value_exact (f : FactoryState)
    (newAddr sender payee amount conditionType hash value now : Nat) :
    ((EscrowFactory.createEscrow f newAddr sender payee amount conditionType hash
        value now).isOk = true → value = amount + creationFee) ∧
    (value ≠ amount + creationFee →
      (EscrowFactory.createEscrow f newAddr sender payee amount conditionType hash
        value now).isOk = false) := by
  have hfail : value ≠ amount + creationFee →
      (EscrowFactory.createEscrow f newAddr sender payee amount conditionType hash
        value now).isOk = false := by
    intro hne
    rw [creationFee, Nat.add_zero] at hne
    unfold EscrowFactory.createEscrow
    split; · rfl
    split; · rfl
    rfl
  refine ⟨fun hok => ?_, hfail⟩
  by_contra hne
  rw [hfail hne] at hok
  exact Bool.noConfusion hok

/-- C6 witness: attaching 7 wei to a creation declaring amount 10 fails,
and a call that succeeds would have value = amount (instantiated at a
mismatching input the implication is vacuously discharged). -/
theorem createEscrow_value_exact_witness :
    (7 : Nat) ≠ 10 + creationFee ∧
    (EscrowFactory.createEscrow sampleFactory 200 1 2 10 0 0 7 0).isOk = false :=
  ⟨by decide,
   (createEscrow_value_exact sampleFactory 200 1 2 10 0 0 7 0).2 (by decide)⟩

namespace ValidationService

/-- `ethers.parseEther('0.001')`: the minimum amount, in wei. -/
def minAmount : Nat := 10 ^ 15

/-- `ethers.parseEther('1000')`: the maximum amount, in wei. -/
def maxAmount : Nat := 10 ^ 21

/-- `ValidationService.validateAmount` over a wei amount coming from the
ledger (a uint256, hence a natural number).  In source order: a falsy
(zero) amount is "required"; `BigInt` conversion cannot fail for a ledger
value; `<= 0` is subsumed by the zero check on naturals; then the range
checks against `minAmount` and `maxAmount`. -/
def validateAmount (fieldName : String) (a : Nat) : Except String Nat :=
  if a = 0 then .error (fieldName ++ " is required")
  else if a < minAmount then .error (fieldName ++ " must be at least 0.001 ETH")
  else if maxAmount < a then .error (fieldName ++ " cannot exceed 1000 ETH for security")
  else .ok a

/-- `ValidationService.validateAddress` for a ledger-provided account
value: the string-format check succeeds exactly for 20-byte values.  (A
falsy input is the empty string; every ledger address, the zero address
included, renders as a non-empty hex string, so the falsy check never
fires for ledger data.) -/
def validateAddress (a : Nat) : Except String Nat :=
  if a < 2 ^ 160 then .ok a else .error "not a valid Ethereum address"

/-- `ValidationService.validateConditionType`: requires an integer between
0 and 4 inclusive (on naturals only the upper bound can fail). -/
def validateConditionType (conditionType : Nat) : Except String Nat :=
  if 4 < conditionType then .error "conditionType must be between 0 and 4"
  else .ok conditionType

/-- `ValidationService.validateStatus`: an integer between 0 and 3
(Pending, Escrowed, Settled, Disputed). -/
def validateStatus (status : Nat) : Except String Nat :=
  if 3 < status then .error "status must be between 0 and 3" else .ok status

/-- One year of seconds, as in `365 * 24 * 60 * 60`. -/
def oneYear : Nat := 365 * 24 * 60 * 60

/-- `ValidationService.validateTimestamp`: a falsy (zero) timestamp is
"required"; otherwise it must lie within one year of `now` on either side.
(On naturals `now - oneYear` truncates at zero exactly as the JS
comparison against a negative bound never fires.) -/
def validateTimestamp (fieldName : String) (t now : Nat) : Except String Nat :=
  if t = 0 then .error (fieldName ++ " is required")
  else if t < now - oneYear then .error (fieldName ++ " is too far in the past")
  else if now + oneYear < t then .error (fieldName ++ " is too far in the future")
  else .ok t

/-- `ValidationService.validateConditionHash`: a 0x-prefixed 64-hex-digit
string, i.e. a 32-byte value. -/
def validateConditionHash (h : Nat) : Except String Nat :=
  if h < 2 ^ 256 then .ok h else .error "conditionHash must be a valid bytes32 hash"

end ValidationService

/-- The record assembled by `BlockchainService.getEscrowDetails` from
`getAgreementDetails()`, `getStatus()` and `getBalance()` before
validation: all fields are ledger words. -/
structure EscrowDetails where
  escrowAddress : Nat
  payer : Nat
  payee : Nat
  amount : Nat
  conditionType : Nat
  conditionHash : Nat
  status : Nat
  createdAt : Nat
  settledAt : Nat
  balance : Nat
deriving DecidableEq, Repr

namespace ValidationService

/-- `ValidationService.validateEscrowDetails`: validates every field in
the order of the source's object literal (escrowAddress, payer, payee,
amount, conditionType, conditionHash, status, createdAt, settledAt —
validated only when non-zero, else 0 — and balance), then the two business
rules: the parties must differ, and a Settled status requires a non-zero
settlement timestamp. -/
def validateEscrowDetails (d : EscrowDetails) (now : Nat) : Except String EscrowDetails :=
  validateAddress d.escrowAddress >>= fun ea =>
  validateAddress d.payer >>= fun pr =>
  validateAddress d.payee >>= fun pe =>
  validateAmount "amount" d.amount >>= fun amt =>
  validateConditionType d.conditionType >>= fun ct =>
  validateConditionHash d.conditionHash >>= fun ch =>
  validateStatus d.status >>= fun st =>
  validateTimestamp "createdAt" d.createdAt now >>= fun ca =>
  (if d.settledAt ≠ 0 then validateTimestamp "settledAt" d.settledAt now else pure 0) >>= fun sa =>
  validateAmount "balance" d.balance >>= fun bal =>
  if pr = pe then
    .error "Payer and payee cannot be the same address"
  else if st = 2 ∧ sa = 0 then
    .error "Settled escrow must have a settlement timestamp"
  else
    .ok { escrowAddress := ea, payer := pr, payee := pe, amount := amt,
          conditionType := ct, conditionHash := ch, status := st,
          createdAt := ca, settledAt := sa, balance := bal }

end ValidationService

/-- C7 counterexample: the claim says the factory accepts every condition
type in [0,4]; in fact a creation call with conditionType 3 — valid in
every other respect — reverts with "Invalid condition type"
(`require(_conditionType <= 2)`). -/
theorem createEscrow_rejects_conditionType_three :
    EscrowFactory.createEscrow sampleFactory 200 1 2 10 3 0 10 0 =
      .error "Invalid condition type" := rfl

/-- C7 amended: the factory's creation entry point rejects exactly the
condition types above 2 — so of the five enumerated kinds it accepts only
Date (0), TaskCompletion (1) and ExternalReference (2), rejecting
ExternalQuery (3) and CustomEvent (4) — while the settlement agent's
off-chain `validateConditionType` accepts the full range [0,4]. -/
theorem conditionType_range_factory_vs_validation (f : FactoryState)
    (newAddr sender payee amount conditionType hash value now : Nat)
    (hp : payee ≠ 0) (ha : amount ≠ 0) (hv : value = amount) (hs : sender ≠ 0)
    (hag : f.authorizedAgent ≠ 0) (hfa : f.x402payFeeAddress ≠ 0)
    (hfee : f.x402payFeeAmount < amount) :
    (EscrowFactory.createEscrow f newAddr sender payee amount conditionType hash value now =
        .error "Invalid condition type" ↔ 2 < conditionType) ∧
    ((ValidationService.validateConditionType conditionType).isOk = true ↔
        conditionType ≤ 4) := by
  constructor
  · unfold EscrowFactory.createEscrow
    rw [if_neg hp, if_neg ha, if_neg (not_ne_iff.mpr hv)]
    by_cases hct : 2 < conditionType
    · rw [if_pos hct]
      simp [hct]
    · rw [if_neg hct]
      obtain ⟨es, hcreate⟩ : ∃ es, Escrow.create sender payee amount conditionType hash
          f.authorizedAgent f.x402payFeeAddress f.x402payFeeAmount now = .ok es := by
        unfold Escrow.create
        simp only [if_neg hs, if_neg hp, if_neg ha, if_neg hag, if_neg hfa, if_pos hfee]
        exact ⟨_, rfl⟩
      rw [hcreate]
      cases hrec : Escrow.receive es f.addr value with
      | error e =>
        simp [hrec]
        omega
      | ok es2 =>
        simp [hrec]
        omega
  · unfold ValidationService.validateConditionType
    by_cases h4 : 4 < conditionType
    · rw [if_pos h4]
      exact iff_of_false (fun hfalse => Bool.noConfusion hfalse) (by omega)
    · rw [if_neg h4]
      exact iff_of_true rfl (by omega)

/-- C7 witness: at condition type 3 with an otherwise fully valid call on
the concrete factory, the factory reverts with "Invalid condition type"
while the off-chain validation accepts 3. -/
theorem conditionType_range_factory_vs_validation_witness :
    EscrowFactory.createEscrow sampleFactory 200 1 2 10 3 0 10 0 =
      .error "Invalid condition type" ∧
    (ValidationService.validateConditionType 3).isOk = true :=
  ⟨(conditionType_range_factory_vs_validation sampleFactory 200 1 2 10 3 0 10 0
      (by decide) (by decide) rfl (by decide) (by decide) (by decide) (by decide)).1.mpr
      (by decide),
   (conditionType_range_factory_vs_validation sampleFactory 200 1 2 10 3 0 10 0
      (by decide) (by decide) rfl (by decide) (by decide) (by decide) (by decide)).2.mpr
      (by decide)⟩

/-- The auxiliary condition record consumed by the evaluator (the
Firestore/simulated agreement data of conditionService.js).  `Option`
models JS truthiness: an absent, null, zero or empty-string field is
`none`.  `createdAt` is in milliseconds. -/
structure AgreementData where
  createdAt : Option Nat
  conditionMet : Bool
  taskCompleted : Bool
  prMerged : Bool
  apiConditionMet : Bool
  customEventTriggered : Bool
  taskName : Option String
  githubPrUrl : Option String
  apiEndpoint : Option String
  customEventName : Option String
deriving DecidableEq, Repr

namespace ConditionService

/-- `checkDateCondition` of conditionService.js: true when the record's
`conditionMet` flag is set, otherwise when more than 2 minutes have passed
since `createdAt` (which defaults to `now` when absent, making the demo
fallback false). -/
def checkDateCondition (data : Option AgreementData) (now : Nat) : Bool :=
  match data with
  | some d =>
    if d.conditionMet then true
    else decide (d.createdAt.getD now + 2 * 60 * 1000 < now)
  | none => decide (now + 2 * 60 * 1000 < now)

/-- `checkTaskCondition`: true when `taskCompleted` is set, otherwise when
the record has a `createdAt` and more than 3 minutes have passed
(auto-completion "for demo"). -/
def checkTaskCondition (data : Option AgreementData) (now : Nat) : Bool :=
  match data with
  | some d =>
    if d.taskCompleted then true
    else
      match d.createdAt with
      | some c => decide (c + 3 * 60 * 1000 < now)
      | none => false
  | none => false

/-- `checkGithubPRCondition`: true when `prMerged` is set, otherwise when
the record has a `githubPrUrl` and more than 4 minutes have passed since
`createdAt` (defaulting to `now`). -/
def checkGithubPRCondition (data : Option AgreementData) (now : Nat) : Bool :=
  match data with
  | some d =>
    if d.prMerged then true
    else
      match d.githubPrUrl with
      | some _ => decide (d.createdAt.getD now + 4 * 60 * 1000 < now)
      | none => false
  | none => false

/-- `checkApiCondition`: true when `apiConditionMet` is set, otherwise
when the record has an `apiEndpoint` and more than 5 minutes have passed
since `createdAt` (defaulting to `now`). -/
def checkApiCondition (data : Option AgreementData) (now : Nat) : Bool :=
  match data with
  | some d =>
    if d.apiConditionMet then true
    else
      match d.apiEndpoint with
      | some _ => decide (d.createdAt.getD now + 5 * 60 * 1000 < now)
      | none => false
  | none => false

/-- `checkCustomEventCondition`: true when `customEventTriggered` is set,
otherwise when the record has a `customEventName` and more than 6 minutes
have passed since `createdAt` (defaulting to `now`). -/
def checkCustomEventCondition (data : Option AgreementData) (now : Nat) : Bool :=
  match data with
  | some d =>
    if d.customEventTriggered then true
    else
      match d.customEventName with
      | some _ => decide (d.createdAt.getD now + 6 * 60 * 1000 < now)
      | none => false
  | none => false

/-- `checkCondition` of conditionService.js: dispatches on the condition
type (0 Date, 1 TaskCompletion, 2 ExternalReference/GitHub PR,
3 ExternalQuery/API, 4 CustomEvent); an unknown type is logged and yields
false.  All branches are pure — no network call is performed. -/
def checkCondition (conditionType : Nat) (data : Option AgreementData) (now : Nat) : Bool :=
  match conditionType with
  | 0 => checkDateCondition data now
  | 1 => checkTaskCondition data now
  | 2 => checkGithubPRCondition data now
  | 3 => checkApiCondition data now
  | 4 => checkCustomEventCondition data now
  | _ => false

/-- Spec-side characterisation, claim C8's words: has the external signal
for this condition type been recorded as true in the auxiliary record. -/
def flagRecorded (conditionType : Nat) (data : Option AgreementData) : Bool :=
  match data with
  | none => false
  | some d =>
    match conditionType with
    | 0 => d.conditionMet
    | 1 => d.taskCompleted
    | 2 => d.prMerged
    | 3 => d.apiConditionMet
    | 4 => d.customEventTriggered
    | _ => false

/-- Spec-side description of the demo auto-completion fallback: the
per-type delay (2/3/4/5/6 minutes) has elapsed since the record's creation
time, provided the fields the source consults are present. -/
def demoAutoElapsed (conditionType : Nat) (data : Option AgreementData) (now : Nat) : Bool :=
  match data with
  | none => false
  | some d =>
    match conditionType with
    | 0 => decide (d.createdAt.getD now + 2 * 60 * 1000 < now)
    | 1 =>
      match d.createdAt with
      | some c => decide (c + 3 * 60 * 1000 < now)
      | none => false
    | 2 => d.githubPrUrl.isSome && decide (d.createdAt.getD now + 4 * 60 * 1000 < now)
    | 3 => d.apiEndpoint.isSome && decide (d.createdAt.getD now + 5 * 60 * 1000 < now)
    | 4 => d.customEventName.isSome && decide (d.createdAt.getD now + 6 * 60 * 1000 < now)
    | _ => false

end ConditionService

/-- C8 amended: for every condition type the evaluator's decision is true
exactly when the corresponding external signal has been recorded as true
in the auxiliary record OR the demo auto-completion delay for that type
has elapsed since the record's creation time; an unknown type yields
false, and no branch performs a network call (the embedded evaluator is a
pure function of the record and the clock). -/
theorem checkCondition_iff_flag_or_demo (conditionType : Nat)
    (data : Option AgreementData) (now : Nat) :
    ConditionService.checkCondition conditionType data now =
      (ConditionService.flagRecorded conditionType data ||
       ConditionService.demoAutoElapsed conditionType data now) := by
  rcases data with _ | d
  · rcases conditionType with _|_|_|_|_|ct <;>
      simp [ConditionService.checkCondition, ConditionService.checkDateCondition,
        ConditionService.checkTaskCondition, ConditionService.checkGithubPRCondition,
        ConditionService.checkApiCondition, ConditionService.checkCustomEventCondition,
        ConditionService.flagRecorded, ConditionService.demoAutoElapsed]
  · rcases conditionType with _|_|_|_|_|ct
    · cases hcm : d.conditionMet <;>
        simp [ConditionService.checkCondition, ConditionService.checkDateCondition,
          ConditionService.flagRecorded, ConditionService.demoAutoElapsed, hcm]
    · cases hcm : d.taskCompleted <;> cases hca : d.createdAt <;>
        simp [ConditionService.checkCondition, ConditionService.checkTaskCondition,
          ConditionService.flagRecorded, ConditionService.demoAutoElapsed, hcm, hca]
    · cases hcm : d.prMerged <;> cases hu : d.githubPrUrl <;>
        simp [ConditionService.checkCondition, ConditionService.checkGithubPRCondition,
          ConditionService.flagRecorded, ConditionService.demoAutoElapsed, hcm, hu]
    · cases hcm : d.apiConditionMet <;> cases hu : d.apiEndpoint <;>
        simp [ConditionService.checkCondition, ConditionService.checkApiCondition,
          ConditionService.flagRecorded, ConditionService.demoAutoElapsed, hcm, hu]
    · cases hcm : d.customEventTriggered <;> cases hu : d.customEventName <;>
        simp [ConditionService.checkCondition, ConditionService.checkCustomEventCondition,
          ConditionService.flagRecorded, ConditionService.demoAutoElapsed, hcm, hu]
    · simp [ConditionService.checkCondition, ConditionService.flagRecorded,
        ConditionService.demoAutoElapsed]

/-- An auxiliary record for a task-completion agreement created at time
1 ms (a truthy, hence `some`, creation time) with no flag set. -/
def flaglessTaskData : AgreementData :=
  { createdAt := some 1, conditionMet := false, taskCompleted := false, prMerged := false,
    apiConditionMet := false, customEventTriggered := false, taskName := some "Task",
    githubPrUrl := none, apiEndpoint := none, customEventName := none }

/-- C8 counterexample: the claim says the evaluator returns false whenever
no completion flag has been recorded; but for a TaskCompletion agreement
whose record was created at time 1 ms, at time 1000000 ms (more than the
3-minute demo delay after creation) `checkCondition` returns true although
`taskCompleted` is false and no flag of the record is set. -/
theorem checkCondition_true_without_flag :
    ConditionService.checkCondition 1 (some flaglessTaskData) 1000000 = true ∧
    flaglessTaskData.taskCompleted = false ∧
    ConditionService.flagRecorded 1 (some flaglessTaskData) = false := ⟨rfl, rfl, rfl⟩

/-- The settlement engine's environment for one monitoring cycle: the raw
ledger read for each agreement address (which can fail with an RPC error),
the auxiliary condition record for each address, the outcome of handing an
address to the transaction submitter (`BlockchainService.settleEscrow`),
and the cycle's clocks (`Math.floor(Date.now()/1000)` seconds for
validation, `Date.now()` milliseconds for condition checks). -/
structure AgentEnv where
  details : Nat → Except String EscrowDetails
  agreementData : Nat → Option AgreementData
  settleResult : Nat → Except String Unit
  nowSec : Nat
  nowMs : Nat

namespace BlockchainService

/-- `BlockchainService.getEscrowDetails`: reads the raw agreement record
from the ledger and validates it; a validation failure propagates as a
thrown error to the caller. -/
def getEscrowDetails (env : AgentEnv) (a : Nat) : Except String EscrowDetails := do
  let raw ← env.details a
  ValidationService.validateEscrowDetails raw env.nowSec

end BlockchainService

/-- The per-agreement outcome of one pass of
`AgentService.processEscrowContract`: a caught-and-logged processing
error, a skip (already settled or disputed / not yet funded), an unmet
condition, a completed settlement, or a caught-and-logged settlement
failure. -/
inductive Outcome where
  | processError (msg : String)
  | skippedSettledOrDisputed
  | skippedNotEscrowed
  | conditionNotMet
  | settled
  | settleFailed (msg : String)
deriving DecidableEq, Repr

namespace AgentService

/-- `AgentService.processEscrowContract`: reads and validates the
agreement (any thrown error is caught by the surrounding try/catch and
only logged), skips statuses 2 (Settled) and 3 (Disputed), skips anything
not in status 1 (Escrowed), evaluates the condition (a total function in
this model — the evaluator catches its own errors and an unknown type
yields false), and if it holds hands the address to the submitter, whose
error is likewise caught and logged inside `settleEscrow`.  The function
is total: no branch propagates an exception to the caller. -/
def processEscrowContract (env : AgentEnv) (a : Nat) : Outcome :=
  match BlockchainService.getEscrowDetails env a with
  | .error e => .processError e
  | .ok d =>
    if d.status = 2 ∨ d.status = 3 then .skippedSettledOrDisputed
    else if d.status ≠ 1 then .skippedNotEscrowed
    else if ConditionService.checkCondition d.conditionType (env.agreementData a) env.nowMs then
      match env.settleResult a with
      | .ok _ => .settled
      | .error e => .settleFailed e
    else .conditionNotMet

/-- `AgentService.monitorAgreements`: one monitoring cycle processes every
deployed address in order, each through `processEscrowContract`. -/
def monitorAgreements (env : AgentEnv) (addrs : List Nat) : List Outcome :=
  addrs.map (processEscrowContract env)

/-- An agreement the cycle should settle: its validated read succeeds with
status Escrowed, its condition evaluates true, and the submitter succeeds. -/
def eligibleAndMet (env : AgentEnv) (a : Nat) : Prop :=
  ∃ d, BlockchainService.getEscrowDetails env a = .ok d ∧ d.status = 1 ∧
    ConditionService.checkCondition d.conditionType (env.agreementData a) env.nowMs = true ∧
    env.settleResult a = .ok ()

end AgentService

/-- C9: a monitoring cycle processes every address of the list — its
outcome list has one entry per address, the i-th entry being exactly
`processEscrowContract` of the i-th address, which depends only on that
address's own reads — so a failure at one agreement (a caught read,
validation or evaluator error, reported as a `processError` outcome) never
aborts the processing of the remaining agreements; and every eligible
agreement whose condition holds is settled in that same cycle, whatever
happened at the other addresses. -/
theorem monitor_isolates_failures (env : AgentEnv) (addrs : List Nat) :
    (AgentService.monitorAgreements env addrs).length = addrs.length ∧
    (∀ i (hi : i < addrs.length),
        (AgentService.monitorAgreements env addrs).get
            ⟨i, by simpa [AgentService.monitorAgreements] using hi⟩ =
          AgentService.processEscrowContract env (addrs.get ⟨i, hi⟩)) ∧
    (∀ a, AgentService.eligibleAndMet env a →
        AgentService.processEscrowContract env a = .settled) := by
  refine ⟨by simp [AgentService.monitorAgreements], ?_, ?_⟩
  · intro i hi
    simp [AgentService.monitorAgreements]
  · intro a ha
    obtain ⟨d, hd, hst, hcond, hsettle⟩ := ha
    unfold AgentService.processEscrowContract
    rw [hd, hsettle] at *
    simp [hst, hcond, hsettle]

/-- The raw ledger read of a healthy funded agreement at address 2:
payer 5, payee 7, amount and balance 0.001 ETH, task condition, status
Escrowed, created at ledger time 1000000000. -/
def healthyDetails : EscrowDetails :=
  { escrowAddress := 2, payer := 5, payee := 7, amount := 10 ^ 15, conditionType := 1,
    conditionHash := 1, status := 1, createdAt := 1000000000, settledAt := 0,
    balance := 10 ^ 15 }

/-- `flaglessTaskData` with the completion flag recorded. -/
def taskMetData : AgreementData := { flaglessTaskData with taskCompleted := true }

/-- A cycle environment where reading address 1 throws an RPC failure
while address 2 is healthy, condition-met and settleable. -/
def mixedCycleEnv : AgentEnv :=
  { details := fun a => if a = 2 then .ok healthyDetails else .error "RPC failure",
    agreementData := fun _ => some taskMetData,
    settleResult := fun a => if a = 2 then .ok () else .error "not submitted",
    nowSec := 1000000000, nowMs := 1000000000 }

/-- C9 witness: in a cycle over addresses [1, 2] where reading agreement 1
throws, agreement 2 is still evaluated and settled: the cycle yields
[processError, settled]. -/
theorem monitor_isolates_failures_witness :
    AgentService.monitorAgreements mixedCycleEnv [1, 2] =
      [Outcome.processError "RPC failure", Outcome.settled] ∧
    AgentService.processEscrowContract mixedCycleEnv 2 = Outcome.settled :=
  ⟨rfl,
   (monitor_isolates_failures mixedCycleEnv [1, 2]).2.2 2
     ⟨healthyDetails, rfl, rfl, rfl, rfl⟩⟩

/-- A successful Except bind means the first computation succeeded and the
continuation succeeded on its result. -/
theorem except_bind_isOk {α β : Type} (x : Except String α) (f : α → Except String β)
    (h : (x >>= f).isOk = true) : ∃ a, x = .ok a ∧ (f a).isOk = true := by
  cases x with
  | error e => exact Bool.noConfusion h
  | ok a => exact ⟨a, rfl, h⟩

/-- A successful `validateAmount` implies the amount lies in the closed
range [minAmount, maxAmount]. -/
theorem validateAmount_ok_range (fieldName : String) (a : Nat) (r : Nat)
    (h : ValidationService.validateAmount fieldName a = .ok r) :
    ValidationService.minAmount ≤ a ∧ a ≤ ValidationService.maxAmount := by
  unfold ValidationService.validateAmount at h
  split at h; · simp at h
  split at h; · simp at h
  split at h; · simp at h
  rename_i h0 hmin hmax
  exact ⟨Nat.not_lt.mp hmin, Nat.not_lt.mp hmax⟩

/-- A successfully validated escrow-details record has both its amount and
its balance in the closed range [minAmount, maxAmount]. -/
theorem validateEscrowDetails_ok_ranges (d : EscrowDetails) (now : Nat)
    (hok : (ValidationService.validateEscrowDetails d now).isOk = true) :
    ValidationService.minAmount ≤ d.amount ∧ d.amount ≤ ValidationService.maxAmount ∧
    ValidationService.minAmount ≤ d.balance ∧ d.balance ≤ ValidationService.maxAmount := by
  unfold ValidationService.validateEscrowDetails at hok
  obtain ⟨ea, hea, hok⟩ := except_bind_isOk _ _ hok
  obtain ⟨pr, hpr, hok⟩ := except_bind_isOk _ _ hok
  obtain ⟨pe, hpe, hok⟩ := except_bind_isOk _ _ hok
  obtain ⟨amt, hamt, hok⟩ := except_bind_isOk _ _ hok
  obtain ⟨ct, hct, hok⟩ := except_bind_isOk _ _ hok
  obtain ⟨ch, hch, hok⟩ := except_bind_isOk _ _ hok
  obtain ⟨st, hst, hok⟩ := except_bind_isOk _ _ hok
  obtain ⟨ca, hca, hok⟩ := except_bind_isOk _ _ hok
  obtain ⟨sa, hsa, hok⟩ := except_bind_isOk _ _ hok
  obtain ⟨bal, hbal, hok⟩ := except_bind_isOk _ _ hok
  obtain ⟨hal, har⟩ := validateAmount_ok_range _ _ _ hamt
  obtain ⟨hbl, hbr⟩ := validateAmount_ok_range _ _ _ hbal
  exact ⟨hal, har, hbl, hbr⟩

/-- C10: the settlement engine's validation accepts an amount only in the
closed range [0.001 ETH, 1000 ETH] = [10^15, 10^21] wei: `validateAmount`
succeeds exactly on that range; a validated details record has both
amount and balance in the range; when the ledger read returns a record
whose amount lies outside it, `getEscrowDetails` throws, the engine's
per-agreement pass ends in a caught `processError`, and the agreement is
neither condition-evaluated nor settled — even though the custody
contract itself accepts any strictly positive amount at creation. -/
theorem engine_amount_range :
    (∀ a : Nat, (ValidationService.validateAmount "amount" a).isOk = true ↔
        ValidationService.minAmount ≤ a ∧ a ≤ ValidationService.maxAmount) ∧
    (∀ (d : EscrowDetails) (now : Nat),
        (ValidationService.validateEscrowDetails d now).isOk = true →
        ValidationService.minAmount ≤ d.amount ∧ d.amount ≤ ValidationService.maxAmount ∧
        ValidationService.minAmount ≤ d.balance ∧ d.balance ≤ ValidationService.maxAmount) ∧
    (∀ (env : AgentEnv) (a : Nat) (d : EscrowDetails), env.details a = .ok d →
        d.amount < ValidationService.minAmount ∨ ValidationService.maxAmount < d.amount →
        ∃ e, AgentService.processEscrowContract env a = .processError e) ∧
    (∀ amount : Nat, 0 < amount → (Escrow.create 1 2 amount 0 0 3 4 0 0).isOk = true) := by
  refine ⟨?_, validateEscrowDetails_ok_ranges, ?_, ?_⟩
  · intro a
    unfold ValidationService.validateAmount
    by_cases h0 : a = 0
    · subst h0
      rw [if_pos rfl]
      exact iff_of_false (fun hfalse => Bool.noConfusion hfalse)
        (fun hr => absurd hr.1 (by decide))
    · rw [if_neg h0]
      by_cases hmin : a < ValidationService.minAmount
      · rw [if_pos hmin]
        exact iff_of_false (fun hfalse => Bool.noConfusion hfalse)
          (fun hr => absurd hmin (Nat.not_lt.mpr hr.1))
      · rw [if_neg hmin]
        by_cases hmax : ValidationService.maxAmount < a
        · rw [if_pos hmax]
          exact iff_of_false (fun hfalse => Bool.noConfusion hfalse)
            (fun hr => absurd hmax (Nat.not_lt.mpr hr.2))
        · rw [if_neg hmax]
          exact iff_of_true rfl ⟨Nat.not_lt.mp hmin, Nat.not_lt.mp hmax⟩
  · intro env a d hd hrange
    have hread : BlockchainService.getEscrowDetails env a =
        ValidationService.validateEscrowDetails d env.nowSec := by
      unfold BlockchainService.getEscrowDetails
      rw [hd]
      rfl
    cases hv : ValidationService.validateEscrowDetails d env.nowSec with
    | error e =>
      refine ⟨e, ?_⟩
      unfold AgentService.processEscrowContract
      rw [hread, hv]
    | ok dv =>
      exfalso
      have hranges := validateEscrowDetails_ok_ranges d env.nowSec (by rw [hv]; rfl)
      cases hrange with
      | inl h => exact absurd hranges.1 (Nat.not_le.mpr h)
      | inr h => exact absurd hranges.2.1 (Nat.not_le.mpr h)
  · intro amount hpos
    unfold Escrow.create
    rw [if_neg (by decide : ¬(1 : Nat) = 0), if_neg (by decide : ¬(2 : Nat) = 0),
      if_neg (Nat.pos_iff_ne_zero.mp hpos), if_neg (by decide : ¬(3 : Nat) = 0),
      if_neg (by decide : ¬(4 : Nat) = 0), if_pos hpos]
    rfl

/-- The raw read of an agreement holding only 1 wei — accepted by the
custody constructor, rejected by the engine's validation. -/
def dustDetails : EscrowDetails :=
  { healthyDetails with amount := 1, balance := 1, escrowAddress := 9 }

/-- A cycle environment whose only agreement, at address 9, holds 1 wei. -/
def dustCycleEnv : AgentEnv :=
  { mixedCycleEnv with details := fun _ => .ok dustDetails }

/-- C10 witness: 0.001 ETH passes `validateAmount`; the engine's pass over
the 1-wei agreement ends in a caught processing error (it is never
evaluated or settled); and the custody constructor accepts the 1-wei
amount the engine rejects. -/
theorem engine_amount_range_witness :
    (ValidationService.validateAmount "amount" (10 ^ 15)).isOk = true ∧
    (∃ e, AgentService.processEscrowContract dustCycleEnv 9 = .processError e) ∧
    (Escrow.create 1 2 1 0 0 3 4 0 0).isOk = true :=
  ⟨(engine_amount_range.1 (10 ^ 15)).mpr (by decide),
   engine_amount_range.2.2.1 dustCycleEnv 9 dustDetails rfl (Or.inl (by decide)),
   engine_amount_range.2.2.2 1 (by decide)⟩
